import Mathlib

/-!
Verification of the content-ingestion and provider-client pipeline of the
Daksh repository (`src/lib/edenai.ts` and the document-upload handler in
`src/app/page.tsx`), as a shallow embedding in Lean 4.

Modelling conventions:
* JS strings are Lean `String`s; `number` is modelled as `ℚ`.
* `Math.random()` is modelled as a stream `rand : ℕ → ℚ`, consumed in the
  order the source calls it.
* Dynamically-shaped JSON error bodies are modelled by the inductive `Json`.
* `async`/network effects are modelled by passing the network outcome as an
  explicit parameter and returning the list of issued provider requests
  alongside the result, so "no network request was made" is expressible.
-/

namespace Daksh

/-- The JavaScript whitespace class `\s` restricted to the ASCII range
(space, tab, line feed, carriage return, vertical tab, form feed);
this is the character set relevant to `String.prototype.trim` and the
sentence-splitting regex in `edenai.ts`. -/
def jsIsWs (c : Char) : Bool :=
  c = ' ' || c = '\t' || c = '\n' || c = '\r' || c = Char.ofNat 11 || c = Char.ofNat 12

/-- The sentence-ending punctuation of the regex `(?<=\.|\?|\!)` in
`getMockAIDetectionData` / `getMockPlagiarismData`. -/
def jsIsPunct (c : Char) : Bool :=
  c = '.' || c = '?' || c = '!'

/-- `String.prototype.trim` on the character-list model: drop leading and
trailing whitespace. -/
def jsTrimList (l : List Char) : List Char :=
  List.rdropWhile jsIsWs (List.dropWhile jsIsWs l)

/-- `String.prototype.trim`. -/
def jsTrim (s : String) : String :=
  String.mk (jsTrimList s.data)

/-- Is the head of the (reversed) current segment a sentence-ending
punctuation character?  The head of the reversed accumulator is exactly the
character preceding the current scan position, i.e. the lookbehind of the
regex `(?<=\.|\?|\!)\s+`. -/
def headIsPunct : List Char → Bool
  | [] => false
  | p :: _ => jsIsPunct p

/-- Scanner for `text.split(/(?<=\.|\?|\!)\s+/)`: `cur` is the reversed
current segment, `sep` records whether we are inside a separator run
(a maximal whitespace run whose first character was preceded by `.`, `?`
or `!`). -/
def segsAux : List Char → List Char → Bool → List (List Char)
  | [], cur, _ => [cur.reverse]
  | c :: cs, cur, sep =>
    if sep && jsIsWs c then
      segsAux cs cur sep
    else if !sep && jsIsWs c && headIsPunct cur then
      cur.reverse :: segsAux cs [] true
    else
      segsAux cs (c :: cur) false

/-- `text.split(/(?<=\.|\?|\!)\s+/)`: split on whitespace runs preceded by
sentence-ending punctuation. -/
def jsSplitSentences (s : String) : List String :=
  (segsAux s.data [] false).map String.mk

/-- The segment filter `segment => segment.trim().length > 0` shared by both
mock generators. -/
def segmentsOf (text : String) : List String :=
  (jsSplitSentences text).filter (fun segment => (jsTrim segment).length > 0)

/-- `segments.length > 0 ? segments : [text || placeholder]`: the processed
segment list of both mock generators (the JS `||` treats only the empty
string as falsy here). -/
def mockSegments (text : String) (placeholder : String) : List String :=
  let segments := segmentsOf text
  if segments.length > 0 then segments
  else [if text = "" then placeholder else text]

/-- One element of `AIDetectionResult.items` (the inline item type of
`edenai.ts`). -/
structure AIDetectionItem where
  text : String
  prediction : String
  ai_score : ℚ
  ai_score_detail : ℚ
deriving DecidableEq

/-- `interface AIDetectionResult` of `edenai.ts`. -/
structure AIDetectionResult where
  ai_score : ℚ
  items : List AIDetectionItem
  cost : ℚ
deriving DecidableEq

/-- `interface AIDetectionResponse`: the optional `winstonai` key plus the
index signature `[key: string]: AIDetectionResult | undefined` for any
other provider keys. -/
structure AIDetectionResponse where
  winstonai : Option AIDetectionResult
  others : List (String × AIDetectionResult)
deriving DecidableEq

/-- `getMockAIDetectionData` of `edenai.ts`.  Each mapped item consumes
three `Math.random()` calls in source order (prediction, `ai_score`,
`ai_score_detail`), so item `i` reads `rand (3*i)`, `rand (3*i+1)`,
`rand (3*i+2)`. -/
def getMockAIDetectionData (text : String) (rand : ℕ → ℚ) : AIDetectionResponse :=
  let processedSegments := mockSegments text "Sample text for AI detection"
  { winstonai := some
      { ai_score := 1/2
        items := processedSegments.enum.map (fun p =>
          { text := p.2
            prediction := if rand (3 * p.1) > 1/2 then "ai-generated" else "human"
            ai_score := rand (3 * p.1 + 1)
            ai_score_detail := rand (3 * p.1 + 2) })
        cost := 0 }
    others := [] }

/-- `interface PlagiarismCandidate` of `edenai.ts`. -/
structure PlagiarismCandidate where
  url : String
  plagia_score : ℚ
  prediction : String
  plagiarized_text : String
deriving DecidableEq

/-- `interface PlagiarismItem` of `edenai.ts`. -/
structure PlagiarismItem where
  text : String
  candidates : List PlagiarismCandidate
deriving DecidableEq

/-- `interface PlagiarismResult` of `edenai.ts`. -/
structure PlagiarismResult where
  plagia_score : ℚ
  items : List PlagiarismItem
  cost : ℚ
deriving DecidableEq

/-- `interface PlagiarismResponse`: the optional `originalityai` key plus
the index signature for any other provider keys. -/
structure PlagiarismResponse where
  originalityai : Option PlagiarismResult
  others : List (String × PlagiarismResult)
deriving DecidableEq

/-- One record of the `realisticSources` array of `getMockPlagiarismData`. -/
structure SourceRecord where
  url : String
  content : String
  score : ℚ

/-- The fixed `realisticSources` pool of `getMockPlagiarismData`. -/
def realisticSources : List SourceRecord :=
  [ { url := "https://scholar.google.com/scholar?q=artificial+intelligence+ethics"
      content := "The ethical implications of artificial intelligence have become increasingly important as AI systems become more sophisticated and integrated into society."
      score := 85/100 }
  , { url := "https://www.researchgate.net/publication/ai-ethics-2023"
      content := "Recent developments in AI have raised significant concerns about bias, privacy, and accountability in automated decision-making systems."
      score := 92/100 }
  , { url := "https://www.sciencedirect.com/science/article/ai-society"
      content := "The impact of artificial intelligence on modern society extends beyond technological advancement to fundamental changes in how we work and interact."
      score := 78/100 }
  , { url := "https://www.jstor.org/stable/ai-research"
      content := "As AI systems become more prevalent, questions about their governance and regulation have come to the forefront of public discourse."
      score := 88/100 }
  , { url := "https://www.medium.com/ai-ethics"
      content := "The development of ethical AI requires collaboration between technologists, policymakers, and ethicists to ensure responsible innovation."
      score := 75/100 } ]

/-- The candidate built from one randomly selected source record
(`realisticSources[Math.floor(Math.random() * realisticSources.length)]`).
Out-of-range indices (possible only if the random source leaves `[0,1)`)
fall back to a dummy record, standing in for the JS crash on `undefined`. -/
def mockCandidateOf (r : ℚ) : PlagiarismCandidate :=
  let randomSource := realisticSources.getD
    (Int.toNat (Int.floor (r * (realisticSources.length : ℚ))))
    { url := "", content := "", score := 0 }
  { url := randomSource.url
    plagia_score := randomSource.score
    prediction := if randomSource.score > 7/10 then "plagiarized" else "original"
    plagiarized_text := randomSource.content }

/-- The inner `for (let j = 0; j < numCandidates; j++)` loop of
`getMockPlagiarismData`: build `n` candidates, consuming one random value
each starting at stream index `k`; returns the candidates and the next
unconsumed stream index. -/
def mockCandidates (rand : ℕ → ℚ) (k : ℕ) : ℕ → List PlagiarismCandidate × ℕ
  | 0 => ([], k)
  | n + 1 =>
    let c := mockCandidateOf (rand k)
    let rest := mockCandidates rand (k + 1) n
    (c :: rest.1, rest.2)

/-- The outer `for (let i = 0; i < numItems; i++)` loop of
`getMockPlagiarismData`: `i` is the loop counter (index into
`processedSegments`), `k` the next random-stream index, and the third
argument the remaining iteration count. -/
def mockPlagItems (rand : ℕ → ℚ) (segs : List String) (k i : ℕ) :
    ℕ → List PlagiarismItem × ℕ
  | 0 => ([], k)
  | m + 1 =>
    let itemTextRaw := segs.getD i ""
    let itemText := if itemTextRaw = "" then "Sample text for plagiarism detection" else itemTextRaw
    let numCandidates := Int.toNat (Int.floor (rand k * 2) + 1)
    let cands := mockCandidates rand (k + 1) numCandidates
    let rest := mockPlagItems rand segs cands.2 (i + 1) m
    ({ text := itemText, candidates := cands.1 } :: rest.1, rest.2)

/-- `Math.min(processedSegments.length, Math.max(3, Math.floor(Math.random()*3)+3))`,
computed in `ℤ` so that a (hypothetical) negative random value still follows
the JS arithmetic before the clamp. -/
def mockNumItems (segLen : ℕ) (r : ℚ) : ℕ :=
  Int.toNat (min (segLen : ℤ) (max 3 (Int.floor (r * 3) + 3)))

/-- `getMockPlagiarismData` of `edenai.ts`.  `Math.random()` calls are
consumed in source order: index 0 for `numItems`, then one per item for
`numCandidates` plus one per candidate, and a final call for the overall
`plagia_score`. -/
def getMockPlagiarismData (text : String) (rand : ℕ → ℚ) : PlagiarismResponse :=
  let processedSegments := mockSegments text "Sample text for plagiarism detection"
  let numItems := mockNumItems processedSegments.length (rand 0)
  let mockItems := mockPlagItems rand processedSegments 1 0 numItems
  { originalityai := some
      { plagia_score := ((Int.floor (rand mockItems.2 * 40) + 5 : ℤ) : ℚ)
        items := mockItems.1
        cost := 0 }
    others := [] }

/-- Dynamically-shaped JS values, as far as the error paths of `edenai.ts`
observe them: the response body `errorData` is an arbitrary JS value. -/
inductive Json where
  | undef : Json
  | null : Json
  | bool (b : Bool) : Json
  | num (q : ℚ) : Json
  | str (s : String) : Json
  | arr (elems : List Json) : Json
  | obj (fields : List (String × Json)) : Json

/-- First-match association lookup; a runtime JS object has unique keys, so
first-match and last-match agree on faithful inputs. -/
def jsonLookup (fields : List (String × Json)) (k : String) : Option Json :=
  (fields.find? (fun kv => kv.1 = k)).map (fun kv => kv.2)

/-- `errorData && typeof errorData === 'object'`: truthy values of JS type
`'object'` are exactly objects and arrays (`null` is of type `'object'` but
falsy). -/
def isObjectTruthy : Json → Bool
  | .obj _ => true
  | .arr _ => true
  | _ => false

/-- `'k' in errorData` for the four keys the classifier probes: own
properties of a plain object; arrays have none of these keys. -/
def hasKeyJson : Json → String → Bool
  | .obj fields, k => (jsonLookup fields k).isSome
  | _, _ => false

/-- Property read `errorData[k]` on the values `isObjectTruthy` admits. -/
def getKeyJson : Json → String → Option Json
  | .obj fields, k => jsonLookup fields k
  | _, _ => none

/-- JS number-to-string conversion, restricted to the integral values the
claims exercise (non-integral rationals are rendered in Lean's `a/b` form,
an approximation of JS float formatting). -/
def jsNumToString (q : ℚ) : String :=
  if q.den = 1 then toString q.num else toString q

mutual

/-- The implicit `String(v)` conversion applied by `new Error(v as string)`. -/
def jsToString : Json → String
  | .undef => "undefined"
  | .null => "null"
  | .bool b => if b then "true" else "false"
  | .num q => jsNumToString q
  | .str s => s
  | .arr elems => String.intercalate "," (jsToStringArr elems)
  | .obj _ => "[object Object]"

/-- `Array.prototype.toString` joins with `","`, rendering `null` and
`undefined` elements as the empty string. -/
def jsToStringArr : List Json → List String
  | [] => []
  | .null :: xs => "" :: jsToStringArr xs
  | .undef :: xs => "" :: jsToStringArr xs
  | x :: xs => jsToString x :: jsToStringArr xs

end

/-- JSON string escaping for `JSON.stringify` (the escapes the claims can
reach: backslash, quote and the common control characters). -/
def jsonEscapeChar (c : Char) : List Char :=
  if c = '\\' then ['\\', '\\']
  else if c = '"' then ['\\', '"']
  else if c = '\n' then ['\\', 'n']
  else if c = '\r' then ['\\', 'r']
  else if c = '\t' then ['\\', 't']
  else [c]

/-- Quoted, escaped JSON string literal. -/
def jsonQuote (s : String) : String :=
  "\"" ++ String.mk (s.data.flatMap jsonEscapeChar) ++ "\""

mutual

/-- `JSON.stringify`; `none` models the JS result `undefined` (top-level
`undefined` input). -/
def stringifyVal : Json → Option String
  | .undef => none
  | .null => some "null"
  | .bool b => some (if b then "true" else "false")
  | .num q => some (jsNumToString q)
  | .str s => some (jsonQuote s)
  | .arr elems => some ("[" ++ String.intercalate "," (stringifyArr elems) ++ "]")
  | .obj fields => some ("\x7b" ++ String.intercalate "," (stringifyObj fields) ++ "\x7d")

/-- Array elements: `undefined` entries are stringified as `null`. -/
def stringifyArr : List Json → List String
  | [] => []
  | x :: xs => ((stringifyVal x).getD "null") :: stringifyArr xs

/-- Object fields: entries whose value stringifies to `undefined` are
omitted. -/
def stringifyObj : List (String × Json) → List String
  | [] => []
  | (k, v) :: fields =>
    match stringifyVal v with
    | some sv => (jsonQuote k ++ ":" ++ sv) :: stringifyObj fields
    | none => stringifyObj fields

end

/-- The fixed message thrown on status 402 and on the `"No more credits"`
body key. -/
def quotaExhaustedMsg : String :=
  "API credits exhausted. The demo is currently unavailable due to reaching API usage limits."

/-- The message thrown when `validateApiKey` fails. -/
def invalidApiKeyMsg : String :=
  "Invalid API key. Please check your EDEN_AI_API_KEY environment variable."

/-- The message thrown when a request was sent but no response arrived. -/
def noResponseMsg : String :=
  "No response received from server. Please check your network connection."

/-- `new Error(v as string)` sets the message to `String(v)` unless `v` is
literally `undefined`, in which case the message is empty. -/
def errorMessageOfValue : Json → String
  | .undef => ""
  | v => jsToString v

/-- `` `API Error (${status}): ${JSON.stringify(errorData) || 'Unknown error'}` ``:
the fall-through message carrying the status and the stringified body
(`undefined`/empty stringifications are falsy and replaced). -/
def apiErrorMessage (status : ℕ) (data : Json) : String :=
  "API Error (" ++ toString status ++ "): " ++
    (match stringifyVal data with
     | some s => if s = "" then "Unknown error" else s
     | none => "Unknown error")

/-- The `axiosError.response` branch of the catch blocks of both
`detectAIContent` and `detectPlagiarism` (the two blocks are identical):
402 first, then the `message` > `error` > `detail` > `"No more credits"`
key priority on truthy object bodies, else the stringified fall-through. -/
def classifyResponseError (status : ℕ) (data : Json) : String :=
  if status = 402 then quotaExhaustedMsg
  else if isObjectTruthy data then
    match getKeyJson data "message" with
    | some v => errorMessageOfValue v
    | none =>
      match getKeyJson data "error" with
      | some v => errorMessageOfValue v
      | none =>
        match getKeyJson data "detail" with
        | some v => errorMessageOfValue v
        | none =>
          if hasKeyJson data "No more credits" then quotaExhaustedMsg
          else apiErrorMessage status data
  else apiErrorMessage status data

/-- The failure handed to the shared catch block: an axios error carrying a
response, an axios error carrying only a request (no response), a local
`Error`, or a non-`Error` throw. -/
inductive AxiosFailure where
  | response (status : ℕ) (data : Json)
  | requestOnly
  | localError (message : String)
  | localUnknown

/-- The whole catch block: the thrown error message as a function of the
failure shape. -/
def classifyError : AxiosFailure → String
  | .response status data => classifyResponseError status data
  | .requestOnly => noResponseMsg
  | .localError message => "Error: " ++ message
  | .localUnknown => "Error: Unknown error occurred"

/-- `validateApiKey` of `edenai.ts` (without its `console.log` side
effect): the `typeof apiKey === 'string'` conjunct is always true in this
model, where the credential is a string and an unset environment variable
is the empty string (`process.env... || ""`). -/
def validateApiKey (apiKey : String) : Bool :=
  (jsTrim apiKey).length > 0

/-- `interface AIDetectionRequest` of `edenai.ts`. -/
structure AIDetectionRequest where
  providers : String
  text : String
  fallback_providers : String
deriving DecidableEq

/-- `interface PlagiarismRequest` of `edenai.ts`. -/
structure PlagiarismRequest where
  providers : String
  text : String
  title : String
deriving DecidableEq

/-- Outcome of the awaited `axios.request<AIDetectionResponse>` call,
passed in explicitly in place of the network. -/
inductive AINetOutcome where
  | success (data : AIDetectionResponse)
  | failure (f : AxiosFailure)

/-- Outcome of the awaited `axios.request<PlagiarismResponse>` call. -/
inductive PlagNetOutcome where
  | success (data : PlagiarismResponse)
  | failure (f : AxiosFailure)

/-- The response-shape guard of `detectAIContent`
(`if (!data.winstonai) data.winstonai = {ai_score: 0, items: [], cost: 0}`):
an existing `winstonai` record is an object, hence truthy, so only a
missing key is replaced. -/
def normalizeAIResponse (data : AIDetectionResponse) : AIDetectionResponse :=
  match data.winstonai with
  | some _ => data
  | none => { data with winstonai := some { ai_score := 0, items := [], cost := 0 } }

/-- The response-shape guard of `detectPlagiarism`
(`if (!data.originalityai) data.originalityai = {plagia_score: 0, items: [], cost: 0}`). -/
def normalizePlagiarismResponse (data : PlagiarismResponse) : PlagiarismResponse :=
  match data.originalityai with
  | some _ => data
  | none => { data with originalityai := some { plagia_score := 0, items := [], cost := 0 } }

/-- `detectAIContent` of `edenai.ts`.  The returned list records the
provider requests issued (empty when the function returns or throws before
the `axios.request` call); `Except.error` models a thrown error, carrying
its message. -/
def detectAIContent (text : String) (useMockData : Bool) (apiKey : String)
    (net : AINetOutcome) (rand : ℕ → ℚ) :
    Except String AIDetectionResponse × List AIDetectionRequest :=
  if useMockData then
    (Except.ok (getMockAIDetectionData text rand), [])
  else if !validateApiKey apiKey then
    (Except.error invalidApiKeyMsg, [])
  else
    let requestData : AIDetectionRequest :=
      { providers := "winstonai", text := text, fallback_providers := "" }
    match net with
    | .success data => (Except.ok (normalizeAIResponse data), [requestData])
    | .failure f => (Except.error (classifyError f), [requestData])

/-- `detectPlagiarism` of `edenai.ts`, modelled like `detectAIContent`. -/
def detectPlagiarism (text : String) (title : String) (useMockData : Bool)
    (apiKey : String) (net : PlagNetOutcome) (rand : ℕ → ℚ) :
    Except String PlagiarismResponse × List PlagiarismRequest :=
  if useMockData then
    (Except.ok (getMockPlagiarismData text rand), [])
  else if !validateApiKey apiKey then
    (Except.error invalidApiKeyMsg, [])
  else
    let requestData : PlagiarismRequest :=
      { providers := "originalityai", text := text, title := title }
    match net with
    | .success data => (Except.ok (normalizePlagiarismResponse data), [requestData])
    | .failure f => (Except.error (classifyError f), [requestData])

/-- The untrimmed page accumulation of `extractTextFromPDF` in
`src/app/page.tsx`: a page is the list of its text-content item strings
(`item.str`); fragments are joined with a single space and a newline is
appended after each page, pages taken in increasing page number order. -/
def pdfFullText (pages : List (List String)) : String :=
  pages.foldl (fun fullText items => fullText ++ String.intercalate " " items ++ "\n") ""

/-- `extractTextFromPDF` of `src/app/page.tsx` (`return fullText.trim()`). -/
def extractTextFromPDF (pages : List (List String)) : String :=
  jsTrim (pdfFullText pages)

/-- An uploaded document as `handleFileChange` distinguishes it by media
type.  `word` covers both the zipped-XML and the legacy word-processing
media types, whose raw text run content (what the external
`mammoth.extractRawText` library returns) is modelled as the stored
string. -/
inductive UploadedDocument where
  | pdf (pages : List (List String))
  | word (rawText : String)
  | otherFile (mediaType : String)

/-- The extraction core of `handleFileChange` in `src/app/page.tsx`:
the per-format extraction, the `extractedText && extractedText.trim()`
guard, and `setText(extractedText.trim())`.  `Except.error` carries the
message of the thrown (and locally displayed) error. -/
def handleFileChange : UploadedDocument → Except String String
  | .pdf pages =>
    let extractedText := extractTextFromPDF pages
    if extractedText ≠ "" ∧ jsTrim extractedText ≠ "" then
      Except.ok (jsTrim extractedText)
    else
      Except.error "Could not extract text from the document. Please try again."
  | .word rawText =>
    let extractedText := rawText
    if extractedText ≠ "" ∧ jsTrim extractedText ≠ "" then
      Except.ok (jsTrim extractedText)
    else
      Except.error "Could not extract text from the document. Please try again."
  | .otherFile _ =>
    Except.error "Please upload a PDF or Word document (.pdf, .doc, or .docx)"

/-- The recoverable plain text of a supported document: the untrimmed page
concatenation for a PDF, the raw text run content for a word-processing
document; `none` for unsupported media types. -/
def recoverableText : UploadedDocument → Option String
  | .pdf pages => some (pdfFullText pages)
  | .word rawText => some rawText
  | .otherFile _ => none

/-- Does the character list contain a sentence-ending delimiter, i.e. a
`.`/`?`/`!` immediately followed by a whitespace character?  This is the
hypothesis of the mock-segmentation claims. -/
def containsDelim : List Char → Bool
  | c1 :: c2 :: rest => (jsIsPunct c1 && jsIsWs c2) || containsDelim (c2 :: rest)
  | _ => false

theorem jsTrimList_eq_nil_iff (l : List Char) :
    jsTrimList l = [] ↔ ∀ c ∈ l, jsIsWs c := by
  unfold jsTrimList
  rw [List.rdropWhile_eq_nil_iff]
  constructor
  · intro h c hc
    rw [← List.takeWhile_append_dropWhile jsIsWs l] at hc
    rcases List.mem_append.mp hc with h1 | h2
    · exact List.mem_takeWhile_imp h1
    · exact h c h2
  · intro h c hc
    exact h c (List.dropWhile_subset jsIsWs hc)

theorem jsTrim_eq_empty_iff (s : String) :
    jsTrim s = "" ↔ ∀ c ∈ s.data, jsIsWs c := by
  rw [← jsTrimList_eq_nil_iff s.data]
  constructor
  · intro h
    have := congrArg String.data h
    simpa [jsTrim] using this
  · intro h
    simp [jsTrim, h]

theorem dropWhile_rdropWhile_dropWhile (p : Char → Bool) (l : List Char) :
    List.dropWhile p (List.rdropWhile p (List.dropWhile p l)) =
      List.rdropWhile p (List.dropWhile p l) := by
  rcases he : List.rdropWhile p (List.dropWhile p l) with _ | ⟨c, rest⟩
  · simp
  · obtain ⟨t, ht⟩ := List.rdropWhile_prefix p (List.dropWhile p l)
    rw [he] at ht
    have hd : List.dropWhile p l = c :: (rest ++ t) := by
      rw [← ht]; simp
    have hq : (List.dropWhile p l).head? = some c := by rw [hd]; rfl
    have h0 := List.head?_dropWhile_not p l
    rw [hq] at h0
    have hnp : p c = false := h0
    simp [List.dropWhile_cons, hnp]

theorem jsTrimList_idempotent (l : List Char) :
    jsTrimList (jsTrimList l) = jsTrimList l := by
  unfold jsTrimList
  rw [dropWhile_rdropWhile_dropWhile, List.rdropWhile_idempotent]

theorem jsTrim_idempotent (s : String) : jsTrim (jsTrim s) = jsTrim s := by
  simp [jsTrim, jsTrimList_idempotent]

/-- The sentence splitter only discards whitespace characters: the non-white
characters of the concatenated segments are those of the input (with the
accumulator and mode generalized). -/
theorem segsAux_flatten_filter (cs : List Char) (cur : List Char) (sep : Bool) :
    ((segsAux cs cur sep).flatten).filter (fun c => !jsIsWs c) =
      (cur.reverse ++ cs).filter (fun c => !jsIsWs c) := by
  induction cs generalizing cur sep with
  | nil => simp [segsAux]
  | cons c cs ih =>
    unfold segsAux
    by_cases h1 : (sep && jsIsWs c) = true
    · rw [if_pos h1, ih]
      have hws : jsIsWs c = true := (Bool.and_eq_true ..).mp h1 |>.2
      simp [List.filter_append, List.filter_cons, hws]
    · rw [if_neg h1]
      by_cases h2 : (!sep && jsIsWs c && headIsPunct cur) = true
      · rw [if_pos h2, List.flatten_cons, List.filter_append, ih]
        have hws : jsIsWs c = true := by
          have := (Bool.and_eq_true ..).mp h2 |>.1
          exact (Bool.and_eq_true ..).mp this |>.2
        simp [List.filter_append, List.filter_cons, hws]
      · rw [if_neg h2, ih]
        simp [List.reverse_cons, List.append_assoc]

theorem containsDelim_exists_punct :
    ∀ cs : List Char, containsDelim cs = true → ∃ c ∈ cs, jsIsPunct c = true
  | c1 :: c2 :: rest, h => by
    unfold containsDelim at h
    rcases (Bool.or_eq_true ..).mp h with h1 | h2
    · exact ⟨c1, List.mem_cons_self .., ((Bool.and_eq_true ..).mp h1).1⟩
    · obtain ⟨c, hc, hp⟩ := containsDelim_exists_punct (c2 :: rest) h2
      exact ⟨c, List.mem_cons_of_mem _ hc, hp⟩

theorem punct_not_ws {c : Char} (h : jsIsPunct c = true) : jsIsWs c = false := by
  have h' : c = '.' ∨ c = '?' ∨ c = '!' := by
    simpa [jsIsPunct, or_assoc] using h
  rcases h' with h' | h' | h' <;> subst h' <;> decide

/-- If the text contains a sentence-ending delimiter then the filtered
segment list is non-empty (so neither mock generator falls back to the
placeholder segment). -/
theorem segmentsOf_ne_nil_of_delim {text : String}
    (h : containsDelim text.data = true) : segmentsOf text ≠ [] := by
  obtain ⟨c, hc, hp⟩ := containsDelim_exists_punct _ h
  have hnw : jsIsWs c = false := punct_not_ws hp
  have hmem : c ∈ ((segsAux text.data [] false).flatten).filter (fun c => !jsIsWs c) := by
    rw [segsAux_flatten_filter]
    simp only [List.reverse_nil, List.nil_append, List.mem_filter]
    exact ⟨hc, by simp [hnw]⟩
  rw [List.mem_filter] at hmem
  obtain ⟨seg, hseg, hcseg⟩ := List.mem_flatten.mp hmem.1
  have htrim : (jsTrim (String.mk seg)).length > 0 := by
    show (String.mk (jsTrimList seg)).length > 0
    have hne : jsTrimList seg ≠ [] := by
      intro hnil
      have := (jsTrimList_eq_nil_iff seg).mp hnil c hcseg
      rw [this] at hnw
      exact Bool.noConfusion hnw
    have : (jsTrimList seg).length > 0 := List.length_pos.mpr hne
    simpa [String.length] using this
  have hmem2 : String.mk seg ∈ segmentsOf text := by
    unfold segmentsOf jsSplitSentences
    exact List.mem_filter.mpr
      ⟨List.mem_map_of_mem _ hseg, by simpa using htrim⟩
  exact List.ne_nil_of_mem hmem2

/-- C1 (counterexample): the claim asserts that extracting a 3-page document
with page texts "A", "B", "C" yields `"A\nB\nC\n"`; the code appends a
newline after each page but then returns `fullText.trim()`, which removes
the trailing newline, so the actual result is `"A\nB\nC"`. -/
theorem extract_pdf_trailing_newline_counterexample :
    extractTextFromPDF [["A"], ["B"], ["C"]] = "A\nB\nC" ∧
    extractTextFromPDF [["A"], ["B"], ["C"]] ≠ "A\nB\nC\n" :=
  ⟨by decide, by decide⟩

/-- C1 (amended): for every paginated document whose pages, in increasing
page-number order, have page texts "A", "B", "C" (a page text being its
fragments joined with a single space), extraction returns `"A\nB\nC"` —
a newline is appended after each page and the final string is trimmed,
which removes the trailing newline. -/
theorem extract_pdf_three_pages_amended (pages : List (List String))
    (h : pages.map (String.intercalate " ") = ["A", "B", "C"]) :
    extractTextFromPDF pages = "A\nB\nC" := by
  rcases pages with _ | ⟨p1, pages⟩
  · simp at h
  rcases pages with _ | ⟨p2, pages⟩
  · simp at h
  rcases pages with _ | ⟨p3, pages⟩
  · simp at h
  rcases pages with _ | ⟨p4, pages⟩
  · simp only [List.map_cons, List.map_nil, List.cons.injEq, and_true] at h
    obtain ⟨h1, h2, h3⟩ := h
    simp only [extractTextFromPDF, pdfFullText, List.foldl_cons, List.foldl_nil, h1, h2, h3]
    decide
  · simp at h

theorem extract_pdf_three_pages_amended_witness :
    [["A"], ["B"], ["C"]].map (String.intercalate " ") = ["A", "B", "C"] ∧
    extractTextFromPDF [["A"], ["B"], ["C"]] = "A\nB\nC" :=
  ⟨by decide, extract_pdf_three_pages_amended [["A"], ["B"], ["C"]] (by decide)⟩

/-- C2: whenever the credential is blank or unset (whitespace-only, i.e.
trim-empty; an unset environment variable is modelled by the empty string),
both `detectAIContent` and `detectPlagiarism` throw the invalid-credential
error and issue no provider request, whatever the network would have
answered. -/
theorem invalid_credential_preflight (text title apiKey : String)
    (netA : AINetOutcome) (netP : PlagNetOutcome) (rand : ℕ → ℚ)
    (h : jsTrim apiKey = "") :
    detectAIContent text false apiKey netA rand = (Except.error invalidApiKeyMsg, []) ∧
    detectPlagiarism text title false apiKey netP rand = (Except.error invalidApiKeyMsg, []) := by
  have hv : validateApiKey apiKey = false := by
    simp [validateApiKey, h]
  constructor <;> simp [detectAIContent, detectPlagiarism, hv]

theorem invalid_credential_preflight_witness :
    jsTrim " " = "" ∧
    (detectAIContent "t" false " " (.failure .requestOnly) (fun _ => 0) =
        (Except.error invalidApiKeyMsg, []) ∧
      detectPlagiarism "t" "" false " " (.failure .requestOnly) (fun _ => 0) =
        (Except.error invalidApiKeyMsg, [])) :=
  ⟨by decide, invalid_credential_preflight "t" "" " "
    (.failure .requestOnly) (.failure .requestOnly) (fun _ => 0) (by decide)⟩

/-- C3: a received response with HTTP status 402 is always classified as the
fixed quota-exhausted message, regardless of the body's content — the 402
check precedes all body-shape inspection — and through both entry points the
thrown error carries exactly that message. -/
theorem status_402_quota_precedence (data : Json) (text title : String) (rand : ℕ → ℚ) :
    classifyError (.response 402 data) = quotaExhaustedMsg ∧
    (detectAIContent text false "key" (.failure (.response 402 data)) rand).1 =
      Except.error quotaExhaustedMsg ∧
    (detectPlagiarism text title false "key" (.failure (.response 402 data)) rand).1 =
      Except.error quotaExhaustedMsg := by
  have hc : classifyError (.response 402 data) = quotaExhaustedMsg := by
    simp [classifyError, classifyResponseError]
  have hv : validateApiKey "key" = true := by decide
  refine ⟨hc, ?_, ?_⟩ <;> simp [detectAIContent, detectPlagiarism, hv, hc]

/-- C5: normalization guarantees the expected provider key for both
capabilities: a missing `winstonai`/`originalityai` key is replaced by the
zero-valued placeholder (score 0, empty item list, cost 0), a present record
leaves the response unchanged, and the key is present afterwards in every
case. -/
theorem normalize_expected_provider_key
    (dataA : AIDetectionResponse) (dataP : PlagiarismResponse) :
    ((dataA.winstonai = none →
        normalizeAIResponse dataA =
          { dataA with winstonai := some { ai_score := 0, items := [], cost := 0 } }) ∧
      (∀ r, dataA.winstonai = some r → normalizeAIResponse dataA = dataA) ∧
      (normalizeAIResponse dataA).winstonai.isSome = true) ∧
    ((dataP.originalityai = none →
        normalizePlagiarismResponse dataP =
          { dataP with originalityai := some { plagia_score := 0, items := [], cost := 0 } }) ∧
      (∀ r, dataP.originalityai = some r → normalizePlagiarismResponse dataP = dataP) ∧
      (normalizePlagiarismResponse dataP).originalityai.isSome = true) := by
  constructor
  · rcases h : dataA.winstonai with _ | r <;> simp [normalizeAIResponse, h]
  · rcases h : dataP.originalityai with _ | r <;> simp [normalizePlagiarismResponse, h]

theorem normalize_expected_provider_key_witness :
    (((({ winstonai := none, others := [] } : AIDetectionResponse).winstonai = none →
        normalizeAIResponse { winstonai := none, others := [] } =
          { winstonai := some { ai_score := 0, items := [], cost := 0 }, others := [] }) ∧
      (∀ r, (({ winstonai := none, others := [] } : AIDetectionResponse).winstonai = some r →
        normalizeAIResponse { winstonai := none, others := [] } =
          { winstonai := none, others := [] })) ∧
      (normalizeAIResponse { winstonai := none, others := [] }).winstonai.isSome = true) ∧
    ((({ originalityai := none, others := [] } : PlagiarismResponse).originalityai = none →
        normalizePlagiarismResponse { originalityai := none, others := [] } =
          { originalityai := some { plagia_score := 0, items := [], cost := 0 }, others := [] }) ∧
      (∀ r, (({ originalityai := none, others := [] } : PlagiarismResponse).originalityai = some r →
        normalizePlagiarismResponse { originalityai := none, others := [] } =
          { originalityai := none, others := [] })) ∧
      (normalizePlagiarismResponse { originalityai := none, others := [] }).originalityai.isSome = true)) :=
  normalize_expected_provider_key
    { winstonai := none, others := [] } { originalityai := none, others := [] }

/-- C6: normalization is idempotent for both capabilities: applying the
normalize step twice yields the same response as applying it once. -/
theorem normalize_idempotent (dataA : AIDetectionResponse) (dataP : PlagiarismResponse) :
    normalizeAIResponse (normalizeAIResponse dataA) = normalizeAIResponse dataA ∧
    normalizePlagiarismResponse (normalizePlagiarismResponse dataP) =
      normalizePlagiarismResponse dataP := by
  constructor
  · rcases h : dataA.winstonai with _ | r <;> simp [normalizeAIResponse, h]
  · rcases h : dataP.originalityai with _ | r <;> simp [normalizePlagiarismResponse, h]

/-- C8: for every input text (including empty and whitespace-only) and both
capabilities, the mock result contains the expected provider key and that
record's cost field equals 0. -/
theorem mock_provider_key_cost_zero (text : String) (rand : ℕ → ℚ) :
    (∃ r, (getMockAIDetectionData text rand).winstonai = some r ∧ r.cost = 0) ∧
    (∃ r, (getMockPlagiarismData text rand).originalityai = some r ∧ r.cost = 0) :=
  ⟨⟨_, rfl, rfl⟩, ⟨_, rfl, rfl⟩⟩

/-- C10: when `useMockData` is true, both entry points return the mock
result immediately — a success for every text and every credential
(including a blank one), with no provider request issued, so neither
credential validation nor the network is ever consulted. -/
theorem mock_path_no_validation_no_network (text title apiKey : String)
    (netA : AINetOutcome) (netP : PlagNetOutcome) (rand : ℕ → ℚ) :
    detectAIContent text true apiKey netA rand =
      (Except.ok (getMockAIDetectionData text rand), []) ∧
    detectPlagiarism text title true apiKey netP rand =
      (Except.ok (getMockPlagiarismData text rand), []) :=
  ⟨rfl, rfl⟩

theorem stringifyVal_obj_ne_empty (fields : List (String × Json)) (s : String)
    (hs : stringifyVal (Json.obj fields) = some s) : s ≠ "" := by
  have he : stringifyVal (Json.obj fields) =
      some ("\x7b" ++ String.intercalate "," (stringifyObj fields) ++ "\x7d") := by
    simp [stringifyVal]
  rw [he] at hs
  injection hs with hs
  intro hempty
  rw [← hs] at hempty
  have hlen := congrArg String.length hempty
  rw [String.length_append, String.length_append] at hlen
  have h1 : "\x7b".length = 1 := rfl
  have h2 : "\x7d".length = 1 := rfl
  have h0 : String.length "" = 0 := rfl
  omega

/-- C4: on a received non-402 response whose body is a (truthy) structured
object, the classified message is extracted by the fixed key priority
`message` > `error` > `detail` > `"No more credits"` (the last yielding the
quota-exhausted message), for all combinations of present keys; an object
body matching none of the keys yields the rejected-error message carrying
the status and the stringified body. -/
theorem error_body_key_priority (status : ℕ) (fields : List (String × Json))
    (hs : status ≠ 402) :
    (∀ v, jsonLookup fields "message" = some v →
      classifyError (.response status (.obj fields)) = errorMessageOfValue v) ∧
    (jsonLookup fields "message" = none →
      ∀ v, jsonLookup fields "error" = some v →
        classifyError (.response status (.obj fields)) = errorMessageOfValue v) ∧
    (jsonLookup fields "message" = none → jsonLookup fields "error" = none →
      ∀ v, jsonLookup fields "detail" = some v →
        classifyError (.response status (.obj fields)) = errorMessageOfValue v) ∧
    (jsonLookup fields "message" = none → jsonLookup fields "error" = none →
      jsonLookup fields "detail" = none →
      ∀ v, jsonLookup fields "No more credits" = some v →
        classifyError (.response status (.obj fields)) = quotaExhaustedMsg) ∧
    (jsonLookup fields "message" = none → jsonLookup fields "error" = none →
      jsonLookup fields "detail" = none → jsonLookup fields "No more credits" = none →
      classifyError (.response status (.obj fields)) =
        "API Error (" ++ toString status ++ "): " ++
          ((stringifyVal (Json.obj fields)).getD "Unknown error")) := by
  refine ⟨?_, ?_, ?_, ?_, ?_⟩
  · intro v hv
    simp [classifyError, classifyResponseError, isObjectTruthy, getKeyJson, hs, hv]
  · intro h1 v hv
    simp [classifyError, classifyResponseError, isObjectTruthy, getKeyJson, hs, h1, hv]
  · intro h1 h2 v hv
    simp [classifyError, classifyResponseError, isObjectTruthy, getKeyJson, hs, h1, h2, hv]
  · intro h1 h2 h3 v hv
    simp [classifyError, classifyResponseError, isObjectTruthy, getKeyJson, hasKeyJson,
      hs, h1, h2, h3, hv]
  · intro h1 h2 h3 h4
    have hmain : classifyError (.response status (.obj fields)) =
        apiErrorMessage status (.obj fields) := by
      simp [classifyError, classifyResponseError, isObjectTruthy, getKeyJson, hasKeyJson,
        hs, h1, h2, h3, h4]
    rw [hmain, apiErrorMessage]
    rcases he : stringifyVal (Json.obj fields) with _ | s
    · exact absurd he (by simp [stringifyVal])
    · have hne : s ≠ "" := stringifyVal_obj_ne_empty fields s he
      simp [hne]

theorem error_body_key_priority_witness :
    (400 : ℕ) ≠ 402 ∧
    ((∀ v, jsonLookup [("detail", Json.str "D")] "message" = some v →
      classifyError (.response 400 (.obj [("detail", Json.str "D")])) = errorMessageOfValue v) ∧
    (jsonLookup [("detail", Json.str "D")] "message" = none →
      ∀ v, jsonLookup [("detail", Json.str "D")] "error" = some v →
        classifyError (.response 400 (.obj [("detail", Json.str "D")])) = errorMessageOfValue v) ∧
    (jsonLookup [("detail", Json.str "D")] "message" = none →
      jsonLookup [("detail", Json.str "D")] "error" = none →
      ∀ v, jsonLookup [("detail", Json.str "D")] "detail" = some v →
        classifyError (.response 400 (.obj [("detail", Json.str "D")])) = errorMessageOfValue v) ∧
    (jsonLookup [("detail", Json.str "D")] "message" = none →
      jsonLookup [("detail", Json.str "D")] "error" = none →
      jsonLookup [("detail", Json.str "D")] "detail" = none →
      ∀ v, jsonLookup [("detail", Json.str "D")] "No more credits" = some v →
        classifyError (.response 400 (.obj [("detail", Json.str "D")])) = quotaExhaustedMsg) ∧
    (jsonLookup [("detail", Json.str "D")] "message" = none →
      jsonLookup [("detail", Json.str "D")] "error" = none →
      jsonLookup [("detail", Json.str "D")] "detail" = none →
      jsonLookup [("detail", Json.str "D")] "No more credits" = none →
      classifyError (.response 400 (.obj [("detail", Json.str "D")])) =
        "API Error (" ++ toString (400 : ℕ) ++ "): " ++
          ((stringifyVal (Json.obj [("detail", Json.str "D")])).getD "Unknown error"))) :=
  ⟨by decide, error_body_key_priority 400 [("detail", Json.str "D")] (by decide)⟩

/-- C7: for every text containing at least one sentence-ending delimiter
(`.`, `?` or `!` followed by whitespace), the AI-detection mock has overall
score exactly 0.5 and one item per delimited non-empty segment, each item's
text equal to the corresponding segment verbatim. -/
theorem mock_ai_items_per_segment (text : String) (rand : ℕ → ℚ)
    (h : containsDelim text.data = true) :
    ∃ r, (getMockAIDetectionData text rand).winstonai = some r ∧
      r.ai_score = 1/2 ∧
      r.items.map (fun item => item.text) = segmentsOf text := by
  have hne : segmentsOf text ≠ [] := segmentsOf_ne_nil_of_delim h
  have hpos : 0 < (segmentsOf text).length := List.length_pos.mpr hne
  have hseg : mockSegments text "Sample text for AI detection" = segmentsOf text := by
    simp [mockSegments, hpos]
  refine ⟨_, rfl, rfl, ?_⟩
  show ((mockSegments text "Sample text for AI detection").enum.map _).map _ = segmentsOf text
  rw [hseg, List.map_map]
  exact List.enum_map_snd _

theorem mock_ai_items_per_segment_witness :
    containsDelim ("Hi. There".data) = true ∧
    ∃ r, (getMockAIDetectionData "Hi. There" (fun _ => 0)).winstonai = some r ∧
      r.ai_score = 1/2 ∧
      r.items.map (fun item => item.text) = segmentsOf "Hi. There" :=
  ⟨by decide, mock_ai_items_per_segment "Hi. There" (fun _ => 0) (by decide)⟩

/-- C9: for every supported document format (paginated and word-processing),
a document whose recoverable text is empty or whitespace-only makes the
extraction handler fail with the empty-result error — an empty string is
never handed to the caller — and a successful extraction returns a
non-empty string equal to the trimmed recoverable text. -/
theorem extraction_empty_result_error (doc : UploadedDocument) (raw : String)
    (h : recoverableText doc = some raw) :
    (jsTrim raw = "" →
      handleFileChange doc =
        Except.error "Could not extract text from the document. Please try again.") ∧
    (∀ s, handleFileChange doc = Except.ok s → s ≠ "" ∧ s = jsTrim raw) := by
  cases doc with
  | pdf pages =>
    simp only [recoverableText, Option.some.injEq] at h
    subst h
    constructor
    · intro hw
      simp [handleFileChange, extractTextFromPDF, hw]
    · intro s hs
      simp only [handleFileChange, extractTextFromPDF] at hs
      by_cases hcond : jsTrim (pdfFullText pages) ≠ "" ∧
          jsTrim (jsTrim (pdfFullText pages)) ≠ ""
      · rw [if_pos hcond] at hs
        injection hs with hs
        subst hs
        exact ⟨hcond.2, jsTrim_idempotent _⟩
      · rw [if_neg hcond] at hs
        exact absurd hs (by simp)
  | word rawText =>
    simp only [recoverableText, Option.some.injEq] at h
    subst h
    constructor
    · intro hw
      have : ¬(rawText ≠ "" ∧ jsTrim rawText ≠ "") := by
        intro hc
        exact hc.2 hw
      simp only [handleFileChange]
      rw [if_neg this]
    · intro s hs
      simp only [handleFileChange] at hs
      by_cases hcond : rawText ≠ "" ∧ jsTrim rawText ≠ ""
      · rw [if_pos hcond] at hs
        injection hs with hs
        subst hs
        exact ⟨hcond.2, rfl⟩
      · rw [if_neg hcond] at hs
        exact absurd hs (by simp)
  | otherFile mediaType =>
    simp [recoverableText] at h

theorem extraction_empty_result_error_witness :
    recoverableText (.word " ") = some " " ∧
    ((jsTrim " " = "" →
      handleFileChange (.word " ") =
        Except.error "Could not extract text from the document. Please try again.") ∧
    (∀ s, handleFileChange (.word " ") = Except.ok s → s ≠ "" ∧ s = jsTrim " ")) :=
  ⟨rfl, extraction_empty_result_error (.word " ") " " rfl⟩

end Daksh
